import Mathlib

/-!
Shallow embedding of the Sequential Reporting core of the sweet-bnf
repository (SequentialReportingServer in the gallica module), together with
proofs of the specified properties.  Dynamic JavaScript values appearing in
the untyped `processSection` input are modelled by the `JSValue` type;
machine numbers that the code only ever treats as integers are modelled by
`Int`.  The Search Service collaborator is passed in as an explicit oracle
function.
-/

namespace SweetBnf

/-- Dynamic JavaScript value, restricted to the shapes the reporting core
inspects (strings, integral numbers, booleans, null, undefined, arrays). -/
inductive JSValue where
  | str (s : String)
  | num (n : Int)
  | bool (b : Bool)
  | null
  | undefined
  | arr (xs : List JSValue)

/-- JavaScript truthiness of a value. -/
def jsTruthy : JSValue → Bool
  | .str s => !(s == "")
  | .num n => !(n == 0)
  | .bool b => b
  | .null => false
  | .undefined => false
  | .arr _ => true

mutual

/-- JavaScript `String(v)` conversion. -/
def jsToString : JSValue → String
  | .str s => s
  | .num n => toString n
  | .bool b => if b then "true" else "false"
  | .null => "null"
  | .undefined => "undefined"
  | .arr xs => jsArrToString xs

/-- JavaScript `Array.prototype.toString` (comma join, null/undefined
elements rendered empty). -/
def jsArrToString : List JSValue → String
  | [] => ""
  | [.null] => ""
  | [.undefined] => ""
  | [v] => jsToString v
  | .null :: rest => "," ++ jsArrToString rest
  | .undefined :: rest => "," ++ jsArrToString rest
  | v :: rest => jsToString v ++ "," ++ jsArrToString rest

end

/-- Decimal value of a digit list (used by the parseInt model). -/
def digitsVal (cs : List Char) : Nat :=
  cs.foldl (fun a c => a * 10 + (c.toNat - 48)) 0

/-- JavaScript `parseInt(s, 10)`: skip leading whitespace, optional sign,
then a maximal run of decimal digits; `none` models `NaN`. -/
def jsParseInt (s : String) : Option Int :=
  let cs := s.data.dropWhile fun c =>
    c == ' ' || c == '\t' || c == '\n' || c == '\r'
  match cs with
  | '-' :: rest =>
    let d := rest.takeWhile Char.isDigit
    if d.isEmpty then none else some (-(digitsVal d : Int))
  | '+' :: rest =>
    let d := rest.takeWhile Char.isDigit
    if d.isEmpty then none else some (digitsVal d : Int)
  | _ =>
    let d := cs.takeWhile Char.isDigit
    if d.isEmpty then none else some (digitsVal d : Int)

/-- JavaScript `x || d` on a possibly-missing number (`none` models both
`undefined` and `NaN`; `0` is falsy and also replaced). -/
def jsIntOr (o : Option Int) (d : Int) : Int :=
  match o with
  | none => d
  | some n => if n == 0 then d else n

/-- Default page count of the reporting server. -/
def DEFAULT_PAGE_COUNT : Int := 4

/-- Default source count of the reporting server. -/
def DEFAULT_SOURCE_COUNT : Int := 10

/-- The untyped `Record<string, unknown>` input of `processSection`,
restricted to the keys the implementation inspects.  `none` means the key
is absent from the object. -/
structure InputData where
  topic : Option JSValue := none
  page_count : Option JSValue := none
  source_count : Option JSValue := none
  include_graphics : Option JSValue := none
  search_sources : Option JSValue := none
  section_number : Option JSValue := none
  total_sections : Option JSValue := none
  title : Option JSValue := none
  content : Option JSValue := none
  is_bibliography : Option JSValue := none
  sources_used : Option JSValue := none
  next_section_needed : Option JSValue := none

/-- A validated report section (the `ReportSection` record of types.ts). -/
structure SectionData where
  section_number : Int
  total_sections : Int
  title : String
  content : String
  is_bibliography : Bool
  sources_used : List JSValue
  next_section_needed : Bool

/-- Result of `validateSectionData`: the three input shapes it accepts. -/
inductive Validated where
  | init (topic : String) (page_count : Option Int) (source_count : Option Int)
      (include_graphics : Option Bool)
  | searchSrc
  | sect (sd : SectionData)

/-- Coercion applied to `section_number` / `total_sections`: a number is
kept, a nonempty all-digit string is converted by `parseInt`, anything
else is rejected (lines 247-261 of the server). -/
def coerceSectionInt : JSValue → Option Int
  | .num n => some n
  | .str s =>
    if s.data ≠ [] ∧ s.data.all Char.isDigit then some (digitsVal s.data : Int)
    else none
  | _ => none

/-- The `content` normalization: null/undefined/absent become the empty
string, a string is kept, anything else is rejected. -/
def contentVal : Option JSValue → Option String
  | none => some ""
  | some .null => some ""
  | some .undefined => some ""
  | some (.str s) => some s
  | some _ => none

/-- The `sources_used` normalization: null/undefined/absent become the
empty array, an array is kept, anything else is rejected. -/
def sourcesUsedVal : Option JSValue → Option (List JSValue)
  | none => some []
  | some .null => some []
  | some .undefined => some []
  | some (.arr xs) => some xs
  | some _ => none

/-- Validation of the append-section input shape (the tail of
`validateSectionData` after the topic and search dispatch). -/
def validateAppend (inp : InputData) : Except String Validated :=
  match inp.section_number, inp.total_sections with
  | none, _ => .error "Missing required field: section_number or total_sections"
  | some _, none => .error "Missing required field: section_number or total_sections"
  | some snv, some tsv =>
    match coerceSectionInt snv with
    | none => .error "Invalid section_number: must be a number"
    | some sn =>
      match coerceSectionInt tsv with
      | none => .error "Invalid total_sections: must be a number"
      | some ts =>
        let title :=
          match inp.title with
          | some tv => if jsTruthy tv then jsToString tv else s!"Section {sn}"
          | none => s!"Section {sn}"
        match contentVal inp.content with
        | none => .error "Invalid content: must be a string"
        | some content =>
          let isBib :=
            match inp.is_bibliography with
            | some v => jsTruthy v
            | none => false
          match sourcesUsedVal inp.sources_used with
          | none => .error "Invalid sources_used: must be an array"
          | some su =>
            let nsn :=
              match inp.next_section_needed with
              | some .undefined => true
              | some v => jsTruthy v
              | none => true
            .ok (.sect ⟨sn, ts, title, content, isBib, su, nsn⟩)

/-- The server's `validateSectionData`: dispatch on the input shape
(initialize / search / append section). -/
def validateSectionData (inp : InputData) : Except String Validated :=
  match inp.topic with
  | some tv =>
    .ok (.init (jsToString tv)
      (inp.page_count.map fun v =>
        jsIntOr (jsParseInt (jsToString v)) DEFAULT_PAGE_COUNT)
      (inp.source_count.map fun v =>
        jsIntOr (jsParseInt (jsToString v)) DEFAULT_SOURCE_COUNT)
      (inp.include_graphics.map jsTruthy))
  | none =>
    match inp.search_sources with
    | some sv => if jsTruthy sv then .ok .searchSrc else validateAppend inp
    | none => validateAppend inp

/-- A normalized bibliographic record returned by the Search Service
(`SearchRecord` in types.ts), restricted to the fields the reporting core
reads.  Fields are dynamic values (`string | string[] | undefined` in the
source). -/
structure SrcRecord where
  title : Option JSValue := none
  creator : Option JSValue := none
  date : Option JSValue := none
  type : Option JSValue := none
  language : Option JSValue := none
  publisher : Option JSValue := none
  identifier : Option JSValue := none
  gallica_url : Option JSValue := none

/-- A discovered source (`Source` in types.ts). -/
structure Source where
  id : Int
  title : String
  creator : String
  date : String
  type : String
  language : String
  url : String
  citation : String
  thumbnail : String

/-- A discovered graphic (`Graphic` in types.ts). -/
structure Graphic where
  id : Int
  title : String
  description : String
  type : String
  url : String
  thumbnail : String

/-- One entry of a plan's section outline. -/
structure PlanSection where
  title : String
  is_bibliography : Bool

/-- A report plan (`ReportPlan` in types.ts). -/
structure ReportPlan where
  topic : String
  total_sections : Nat
  sections : List PlanSection
  current_section : Int
  steps : List String
  current_step : Int
  next_step : String

/-- The per-session mutable state (`SequentialReportState` in types.ts). -/
structure SequentialReportState where
  topic : Option String
  page_count : Int
  source_count : Int
  sources : List Source
  report_sections : List SectionData
  plan : Option ReportPlan
  current_step : Int
  include_graphics : Bool
  graphics : List Graphic

/-- The state installed by the server constructor. -/
def initialState : SequentialReportState :=
  { topic := none, page_count := DEFAULT_PAGE_COUNT,
    source_count := DEFAULT_SOURCE_COUNT, sources := [], report_sections := [],
    plan := none, current_step := 0, include_graphics := false, graphics := [] }

/-- The pattern `Array.isArray(v) ? (v[0] || dflt) : (v || dflt)` used when a
record field is mapped to a plain string. -/
def pickField (v : Option JSValue) (dflt : String) : String :=
  match v with
  | some (.arr xs) =>
    match xs.head? with
    | some h => if jsTruthy h then jsToString h else dflt
    | none => dflt
  | some w => if jsTruthy w then jsToString w else dflt
  | none => dflt

/-- The pattern `Array.isArray(v) ? v[0] : (v || dflt)` of `formatCitation`
(note: the array branch has no fallback; an empty array yields
`undefined`). -/
def citeField (v : Option JSValue) (dflt : String) : JSValue :=
  match v with
  | some (.arr xs) => xs.headD .undefined
  | some w => if jsTruthy w then w else .str dflt
  | none => .str dflt

/-- Whether `pat` occurs at the head of `hay`. -/
def leadMatch : List Char → List Char → Bool
  | [], _ => true
  | _ :: _, [] => false
  | p :: ps, c :: cs => p == c && leadMatch ps cs

/-- Whether `pat` occurs anywhere in `hay` (JavaScript `includes`). -/
def hasSub (pat : List Char) : List Char → Bool
  | [] => leadMatch pat []
  | c :: t => leadMatch pat (c :: t) || hasSub pat t

/-- Substring test on strings. -/
def strHas (hay pat : String) : Bool := hasSub pat.data hay.data

/-- ASCII lower-casing of a string (JavaScript `toLowerCase` on the
fragment the citation keywords live in). -/
def strLower (s : String) : String := String.mk (s.data.map Char.toLower)

/-- The lower-cased document type a citation branches on:
`Array.isArray(record.type) ? record.type[0] : (record.type || "")`
converted by `String(...).toLowerCase()`. -/
def docTypeOf (r : SrcRecord) : String :=
  strLower (jsToString (citeField r.type ""))

/-- The URL chain of `formatCitation`:
`record.gallica_url || (Array.isArray(id) ? id[0] : id) || "No URL available"`. -/
def citeUrl (r : SrcRecord) : JSValue :=
  let a := r.gallica_url.getD .undefined
  let b :=
    match r.identifier with
    | some (.arr xs) => xs.headD .undefined
    | some w => w
    | none => .undefined
  if jsTruthy a then a else if jsTruthy b then b else .str "No URL available"

/-- The citation string carrying the publisher. -/
def citeWithPublisher (r : SrcRecord) : String :=
  let creator := jsToString (citeField r.creator "Unknown Author")
  let title := jsToString (citeField r.title "Unknown Title")
  let publisher := jsToString (citeField r.publisher "Unknown Publisher")
  let date := jsToString (citeField r.date "n.d.")
  let url := jsToString (citeUrl r)
  s!"{creator}. ({date}). {title}. {publisher}. Retrieved from {url}"

/-- The citation string without the publisher. -/
def citeNoPublisher (r : SrcRecord) : String :=
  let creator := jsToString (citeField r.creator "Unknown Author")
  let title := jsToString (citeField r.title "Unknown Title")
  let date := jsToString (citeField r.date "n.d.")
  let url := jsToString (citeUrl r)
  s!"{creator}. ({date}). {title}. Retrieved from {url}"

/-- The server's `formatCitation`: branch on the lower-cased document
type, monograph/book first, then periodical/article, then the default. -/
def formatCitation (r : SrcRecord) : String :=
  let docType := docTypeOf r
  if strHas docType "monographie" || strHas docType "book" then
    citeWithPublisher r
  else if strHas docType "periodique" || strHas docType "article" then
    citeNoPublisher r
  else
    citeWithPublisher r

/-- JavaScript `xs.slice(0, e)` (a negative end counts from the back). -/
def jsSliceTo (xs : List α) (e : Int) : List α :=
  if e < 0 then xs.take ((xs.length + e).toNat) else xs.take e.toNat

/-- Mapping of one record to a `Source` (loop body of `searchSources`). -/
def mkSource (idx : Int) (r : SrcRecord) : Source :=
  { id := idx,
    title := pickField r.title "Unknown Title",
    creator := pickField r.creator "Unknown Author",
    date := pickField r.date "Unknown Date",
    type := pickField r.type "Unknown Type",
    language := pickField r.language "Unknown Language",
    url :=
      match r.gallica_url with
      | some v => if jsTruthy v then jsToString v else ""
      | none => "",
    citation := formatCitation r,
    thumbnail := "" }

/-- Sources built from a record list, ids continuing from `k + 1`. -/
def buildSources : Nat → List SrcRecord → List Source
  | _, [] => []
  | k, r :: rs => mkSource ((k : Int) + 1) r :: buildSources (k + 1) rs

/-- A supplementary subject-search request issued by Source Discovery. -/
structure SubjectQueryCall where
  subject : String
  exactMatch : Bool
  maxResults : Int
deriving DecidableEq

/-- The server's `searchSources`, with the Search Service passed in: the
primary natural-language results and the subject-search collaborator are
explicit parameters; the second component records the subject-search
requests actually issued. -/
def searchSources (naturalRecords : List SrcRecord)
    (subjectApi : String → Bool → Int → List SrcRecord)
    (topic : String) (sourceCount : Int) :
    List Source × List SubjectQueryCall :=
  if (naturalRecords.length : Int) < sourceCount then
    let rem := sourceCount - (naturalRecords.length : Int)
    let allRecords := naturalRecords ++ subjectApi topic false rem
    (buildSources 0 (jsSliceTo allRecords sourceCount), [⟨topic, false, rem⟩])
  else
    (buildSources 0 (jsSliceTo naturalRecords sourceCount), [])

/-- First whitespace-token extraction: `topic.split(" ")[0] || topic`. -/
def mainKeywordOf (topic : String) : String :=
  match topic.splitOn " " with
  | [] => topic
  | k :: _ => if k == "" then topic else k

/-- The image query of Graphics Discovery. -/
def imgQuery (kw : String) : String :=
  s!"gallica all \"{kw}\" and dc.type all \"image\""

/-- The map query of Graphics Discovery. -/
def mapQuery (kw : String) : String :=
  s!"gallica all \"{kw}\" and dc.type all \"carte\""

/-- The broad visual-material query of Graphics Discovery. -/
def generalQuery (kw : String) : String :=
  s!"gallica all \"{kw}\" and (dc.type all \"image\" or dc.type all \"carte\" or dc.type all \"estampe\")"

/-- Removal of the first occurrence of `pat` (JavaScript
`String.replace(pat, "")` with a string pattern). -/
def dropFirstSub (pat : List Char) : List Char → List Char
  | [] => []
  | c :: t =>
    if leadMatch pat (c :: t) then (c :: t).drop pat.length
    else c :: dropFirstSub pat t

/-- `url.replace("/thumbnail", "")` on strings. -/
def stripThumbnail (s : String) : String :=
  String.mk (dropFirstSub "/thumbnail".data s.data)

/-- The regex match `url.match(/ark:([^\x2f]+)/)`: scan for the leftmost
occurrence of `ark:` followed by at least one non-slash character, and
return the maximal run of non-slash characters after it. -/
def arkScan : List Char → Option (List Char)
  | [] => none
  | c :: cs =>
    if leadMatch "ark:".data (c :: cs) then
      let cap := ((c :: cs).drop 4).takeWhile fun x => !(x == '/')
      if cap.isEmpty then arkScan cs else some cap
    else arkScan cs

/-- Whether every occurrence of `ark:` in the text is immediately followed
by a slash or ends the text (the shape of every standard Gallica URL,
which writes the identifier as `ark:/12148/...`). -/
def arkSlashOnly : List Char → Bool
  | [] => true
  | c :: cs =>
    (if leadMatch "ark:".data (c :: cs) then
      match (c :: cs).drop 4 with
      | [] => true
      | d :: _ => d == '/'
    else true) && arkSlashOnly cs

/-- The raw canonical URL of a record: `result.gallica_url || ""`. -/
def rawUrlOf (r : SrcRecord) : String :=
  match r.gallica_url with
  | some v => if jsTruthy v then jsToString v else ""
  | none => ""

/-- The cleaned URL of a graphic record (`/thumbnail` suffix removed). -/
def cleanUrlOf (r : SrcRecord) : String := stripThumbnail (rawUrlOf r)

/-- The derived thumbnail of a graphic record: rebuild
`https://gallica.bnf.fr/ark:{id}/thumbnail` from the extracted ARK-like
identifier, or the empty string when the pattern does not match. -/
def thumbnailOf (r : SrcRecord) : String :=
  match arkScan (cleanUrlOf r).data with
  | some cap =>
    let capStr := String.mk cap
    s!"https://gallica.bnf.fr/ark:{capStr}/thumbnail"
  | none => ""

/-- Mapping of one record to a `Graphic` (loop bodies of
`searchGraphics`; `isImage` selects the image or the map loop). -/
def graphicOfRecord (isImage : Bool) (topic : String) (gid : Int)
    (r : SrcRecord) : Graphic :=
  let dflt := if isImage then "Untitled Image" else "Untitled Map"
  let title := pickField r.title dflt
  { id := gid,
    title := title,
    description :=
      if isImage then s!"Image related to {topic}: {title}"
      else s!"Map related to {topic}: {title}",
    type := if isImage then "image" else "map",
    url := cleanUrlOf r,
    thumbnail := thumbnailOf r }

/-- Graphics built from a record list, ids continuing from `k + 1`. -/
def buildGraphics (isImage : Bool) (topic : String) :
    Nat → List SrcRecord → List Graphic
  | _, [] => []
  | k, r :: rs =>
    graphicOfRecord isImage topic ((k : Int) + 1) r ::
      buildGraphics isImage topic (k + 1) rs

/-- The synthesized placeholder image. -/
def placeholderImage (topic : String) : Graphic :=
  { id := 1, title := s!"Illustration related to {topic}",
    description := s!"Illustration related to {topic}",
    type := "image", url := "https://gallica.bnf.fr/",
    thumbnail := "https://gallica.bnf.fr/themes/gallica2015/images/logo-gallica.png" }

/-- The synthesized placeholder map. -/
def placeholderMap (topic : String) : Graphic :=
  { id := 2, title := s!"Map related to {topic}",
    description := s!"Map related to {topic}",
    type := "map", url := "https://gallica.bnf.fr/",
    thumbnail := "https://gallica.bnf.fr/themes/gallica2015/images/logo-gallica.png" }

/-- The server's `searchGraphics`, with the Search Service passed in as
the `api` oracle (query and requested count to returned records). -/
def searchGraphics (api : String → Int → List SrcRecord)
    (topic : String) (count : Int) : List Graphic :=
  let mainKeyword := mainKeywordOf topic
  let img1 := api (imgQuery mainKeyword) count
  let imageRecs := if img1.isEmpty then api (imgQuery topic) count else img1
  let map1 := api (mapQuery mainKeyword) count
  let mapRecs := if map1.isEmpty then api (mapQuery topic) count else map1
  let imageRecs :=
    if imageRecs.isEmpty && mapRecs.isEmpty then
      api (generalQuery mainKeyword) count
    else imageRecs
  let graphics := buildGraphics true topic 0 imageRecs
  let graphics := graphics ++ buildGraphics false topic graphics.length mapRecs
  let graphics :=
    if graphics.isEmpty then [placeholderImage topic, placeholderMap topic]
    else graphics
  jsSliceTo graphics count

/-- The fixed six-phase narrative list of every plan. -/
def planSteps : List String :=
  ["Initialize with topic", "Search for sources", "Create bibliography",
   "Write introduction", "Develop content sections", "Write conclusion"]

/-- The fixed opening of every outline, before padding:
Bibliography, Introduction, then the pageCount-conditional titles. -/
def planBase (pageCount : Int) : List PlanSection :=
  [⟨"Bibliography", true⟩, ⟨"Introduction", false⟩]
    ++ (if pageCount ≥ 2 then [⟨"Historical Context", false⟩] else [])
    ++ (if pageCount ≥ 3 then
        [⟨"Main Analysis", false⟩, ⟨"Key Findings", false⟩] else [])
    ++ (if pageCount ≥ 4 then
        [⟨"Detailed Examination", false⟩, ⟨"Critical Perspectives", false⟩]
       else [])

/-- The server's `createPlan`: compute `min(pageCount*2+1, 20)`, build the
fixed opening, pad with `Additional Analysis k` until the list reaches
that count, then append `Conclusion`; the returned `total_sections` is the
final list length. -/
def createPlan (topic : String) (pageCount : Int) : ReportPlan :=
  let totalSections : Int := min (pageCount * 2 + 1) 20
  let base := planBase pageCount
  let remaining : Int := totalSections - (base.length : Int)
  let pad := (List.range remaining.toNat).map fun i =>
    let k := i + 1
    (⟨s!"Additional Analysis {k}", false⟩ : PlanSection)
  let sections := base ++ pad ++ [⟨"Conclusion", false⟩]
  { topic := topic, total_sections := sections.length, sections := sections,
    current_section := 0, steps := planSteps, current_step := 0,
    next_step := "Search for sources" }

/-- The structured result returned by `processSection`, one constructor
per distinct response shape of the source. -/
inductive PResult where
  | initOk (topic : String) (pageCount sourceCount : Int)
      (includeGraphics : Bool) (plan : ReportPlan)
  | searchOk (sources : List Source) (graphics : List Graphic)
  | sectionOk (sectionNumber totalSections : Int) (nextSectionNeeded : Bool)
      (reportSectionsCount : Nat) (nextStep : String)
      (sources : Option (List Source))
  | precondErr (msg : String)
  | failedErr (msg : String)

/-- Whether a result carries `isError: true`. -/
def isErrorResult : PResult → Bool
  | .precondErr _ => true
  | .failedErr _ => true
  | _ => false

/-- JavaScript falsiness of the stored topic (`!this.state.topic`). -/
def topicFalsy : Option String → Bool
  | none => true
  | some s => s == ""

/-- JavaScript indexing `l[i]` with a possibly-negative index. -/
def idxInt (l : List α) (i : Int) : Option α :=
  if i < 0 then none else l.get? i.toNat

/-- The `nextStep` hint computed on the append-section branch. -/
def nextStepFor (plan : Option ReportPlan) (sd : SectionData) : String :=
  let ns :=
    match plan with
    | none => "Continue writing the report"
    | some p =>
      if sd.section_number - 1 < (p.sections.length : Int) then
        let sn1 := sd.section_number + 1
        let nt :=
          match idxInt p.sections (sd.section_number - 1 + 1) with
          | some s => if s.title == "" then "Next Section" else s.title
          | none => "Next Section"
        s!"Create section {sn1}: {nt}"
      else "Report complete"
  if sd.next_section_needed then ns else "Report complete"

/-- The server's `processSection`, with the two discovery collaborators
passed in as oracles (`src` for `searchSources`, `gfx` for
`searchGraphics`); returns the new session state and the structured
result. -/
def processSection (src : String → Int → List Source)
    (gfx : String → Int → List Graphic)
    (st : SequentialReportState) (inp : InputData) :
    SequentialReportState × PResult :=
  match validateSectionData inp with
  | .error m => (st, .failedErr m)
  | .ok (.init topic pc sc ig) =>
    let pageCount := jsIntOr pc DEFAULT_PAGE_COUNT
    let sourceCount := jsIntOr sc DEFAULT_SOURCE_COUNT
    let includeGraphics := ig.getD false
    let plan := createPlan topic pageCount
    ({ topic := some topic, page_count := pageCount,
       source_count := sourceCount, include_graphics := includeGraphics,
       sources := [], graphics := [], report_sections := [],
       current_step := 0, plan := some plan },
     .initOk topic pageCount sourceCount includeGraphics plan)
  | .ok .searchSrc =>
    if topicFalsy st.topic then
      (st, .precondErr "Error: No topic specified. Please initialize with a topic first.")
    else
      let t := st.topic.getD ""
      let sources := src t st.source_count
      let graphics := if st.include_graphics then gfx t 5 else st.graphics
      ({ st with sources := sources, graphics := graphics, current_step := 1 },
       .searchOk sources (if st.include_graphics then graphics else []))
  | .ok (.sect sd0) =>
    let sd :=
      if sd0.total_sections < sd0.section_number then
        { sd0 with total_sections := sd0.section_number }
      else sd0
    let newPlan := st.plan.map fun p =>
      { p with current_section := sd.section_number }
    let nextStep := nextStepFor st.plan sd
    let newSections := st.report_sections ++ [sd]
    ({ st with report_sections := newSections, plan := newPlan },
     .sectionOk sd.section_number sd.total_sections sd.next_section_needed
       newSections.length nextStep
       (if sd.is_bibliography then some st.sources else none))

/-- The dispatch condition of the search branch:
`"search_sources" in inputData && inputData.search_sources`. -/
def searchFlag (inp : InputData) : Bool :=
  match inp.search_sources with
  | none => false
  | some v => jsTruthy v

/-- Whether a validation message is one of the three
section_number/total_sections failures. -/
def snTsErrMsg (m : String) : Bool :=
  m == "Missing required field: section_number or total_sections" ||
  m == "Invalid section_number: must be a number" ||
  m == "Invalid total_sections: must be a number"

/-- Whether a validation outcome is a section_number/total_sections
failure. -/
def snTsFailed (e : Except String Validated) : Bool :=
  match e with
  | .error m => snTsErrMsg m
  | .ok _ => false

/-- Whether a `processSection` result is a section_number/total_sections
validation failure. -/
def snTsFailedResult : PResult → Bool
  | .failedErr m => snTsErrMsg m
  | _ => false

/-- Whether a field value passes the section-integer coercion (a number,
or a nonempty all-digit string). -/
def coercibleInt : Option JSValue → Bool
  | some w => (coerceSectionInt w).isSome
  | none => false

/-- Every plan component except `current_section` (used to state that the
plan is not re-derived when a section is appended). -/
def planShape :
    Option ReportPlan →
      Option (String × Nat × List PlanSection × List String × Int × String)
  | none => none
  | some p =>
    some (p.topic, p.total_sections, p.sections, p.steps, p.current_step,
      p.next_step)

/-- A source oracle returning no results. -/
def emptySrcOracle : String → Int → List Source := fun _ _ => []

/-- A graphics oracle returning no results. -/
def emptyGfxOracle : String → Int → List Graphic := fun _ _ => []

/-- A record oracle returning no results. -/
def emptyRecOracle : String → Int → List SrcRecord := fun _ _ => []

/-- A subject-search oracle returning no results. -/
def emptySubjectOracle : String → Bool → Int → List SrcRecord := fun _ _ _ => []

/-- A record whose type names both an article and a monograph. -/
def mixedTypeRecord : SrcRecord := { type := some (.str "article monographie") }

/-- An append input with `section_number = 0` (a number, but not a
positive integer). -/
def inpZeroSection : InputData :=
  { section_number := some (.num 0), total_sections := some (.num 1) }

/-- An append input whose two counters are a number and a digit string. -/
def inpCoercible : InputData :=
  { section_number := some (.num 5), total_sections := some (.str "7") }

/-- A pure search request. -/
def inpSearch : InputData := { search_sources := some (.bool true) }

/-- An append input whose section number exceeds its total. -/
def inpWiden : InputData :=
  { section_number := some (.num 3), total_sections := some (.num 2) }

/-- An initialization input with malformed counts. -/
def inpInitMalformed : InputData :=
  { topic := some (.str "Napoleon"), page_count := some (.str "abc"),
    source_count := some (.str "0") }

/-- A record carrying a standard Gallica canonical URL. -/
def gallicaRecord : SrcRecord :=
  { gallica_url :=
      some (.str "https://gallica.bnf.fr/ark:/12148/btv1b84496913/thumbnail") }

/-- C1: the claim says `total_sections = min(2*pageCount + 1, 20)` and in
particular `9` for `pageCount = 4`; the code computes that very value,
pads the outline up to it, and then appends `Conclusion`, so the returned
`total_sections` is one larger: `10` for `pageCount = 4`, and for
`pageCount = 10` the plan has `21` sections although the code comments
`Cap at 20 sections`. -/
theorem createPlan_total_sections_off_by_one :
    (createPlan "Napoleon" 4).total_sections = 10 ∧
    min ((4 : Int) * 2 + 1) 20 = 9 ∧
    (createPlan "Napoleon" 10).sections.length = 21 :=
  ⟨rfl, by decide, rfl⟩

/-- C8: for every `pageCount ≥ 1` the first plan section is
`Bibliography` flagged as bibliography and the last is `Conclusion`. -/
theorem createPlan_first_bibliography_last_conclusion (topic : String)
    (p : Int) (hp : 1 ≤ p) :
    (createPlan topic p).sections.head? = some ⟨"Bibliography", true⟩ ∧
    (createPlan topic p).sections.getLast? = some ⟨"Conclusion", false⟩ := by
  constructor
  · rfl
  · exact List.getLast?_concat _

/-- Witness for C8 at `pageCount = 4`. -/
theorem createPlan_first_last_witness :
    (1 : Int) ≤ 4 ∧
    ((createPlan "Paris" 4).sections.head? = some ⟨"Bibliography", true⟩ ∧
     (createPlan "Paris" 4).sections.getLast? = some ⟨"Conclusion", false⟩) :=
  ⟨by decide, createPlan_first_bibliography_last_conclusion "Paris" 4 (by decide)⟩

/-- C2 counterexample: a record whose lower-cased type contains
`article` but also `monographie` takes the monograph branch first, so the
publisher-free form is not produced although the claim requires it. -/
theorem formatCitation_mixed_type_counterexample :
    strHas (docTypeOf mixedTypeRecord) "article" = true ∧
    formatCitation mixedTypeRecord =
      "Unknown Author. (n.d.). Unknown Title. Unknown Publisher. Retrieved from No URL available" ∧
    formatCitation mixedTypeRecord ≠ citeNoPublisher mixedTypeRecord :=
  ⟨by decide, rfl, by decide⟩

/-- C2 (amended): the publisher-free citation is produced exactly when
the lower-cased type contains `periodique` or `article` and contains
neither `monographie` nor `book` (that branch is tested first); every
other record gets the publisher form. -/
theorem formatCitation_branching (r : SrcRecord) :
    formatCitation r =
      if (strHas (docTypeOf r) "periodique" || strHas (docTypeOf r) "article")
          && !(strHas (docTypeOf r) "monographie" ||
               strHas (docTypeOf r) "book") then
        citeNoPublisher r
      else citeWithPublisher r := by
  cases h1 : strHas (docTypeOf r) "monographie" || strHas (docTypeOf r) "book" <;>
    cases h2 : strHas (docTypeOf r) "periodique" || strHas (docTypeOf r) "article" <;>
      simp [formatCitation, h1, h2]

/-- C4: a search request before any topic has been initialized returns
the precondition error result and returns the state itself, unchanged in
every field including `current_step`. -/
theorem processSection_search_before_topic
    (src : String → Int → List Source) (gfx : String → Int → List Graphic)
    (st : SequentialReportState) (inp : InputData) (v : JSValue)
    (htopic : st.topic = none) (hin : inp.topic = none)
    (hss : inp.search_sources = some v) (hv : jsTruthy v = true) :
    processSection src gfx st inp =
      (st, .precondErr "Error: No topic specified. Please initialize with a topic first.") := by
  have hval : validateSectionData inp = .ok .searchSrc := by
    unfold validateSectionData
    rw [hin]
    simp only [hss, hv, if_true]
  simp only [processSection, hval]
  rw [htopic]
  rfl

/-- Witness for C4 on the freshly constructed state. -/
theorem processSection_search_before_topic_witness :
    initialState.topic = none ∧
    inpSearch.search_sources = some (.bool true) ∧
    processSection emptySrcOracle emptyGfxOracle initialState inpSearch =
      (initialState, .precondErr "Error: No topic specified. Please initialize with a topic first.") :=
  ⟨rfl, rfl,
    processSection_search_before_topic emptySrcOracle emptyGfxOracle
      initialState inpSearch (.bool true) rfl rfl rfl rfl⟩

/-- C7: a valid append whose section number exceeds its total does not
fail; the section is stored with `total_sections` raised to the section
number, and the plan keeps every component except `current_section` (it
is not re-derived or re-validated). -/
theorem processSection_self_widening
    (src : String → Int → List Source) (gfx : String → Int → List Graphic)
    (st : SequentialReportState) (inp : InputData) (sd : SectionData)
    (hval : validateSectionData inp = .ok (.sect sd))
    (hgt : sd.total_sections < sd.section_number) :
    isErrorResult (processSection src gfx st inp).2 = false ∧
    (processSection src gfx st inp).1.report_sections =
      st.report_sections ++ [{ sd with total_sections := sd.section_number }] ∧
    planShape (processSection src gfx st inp).1.plan = planShape st.plan := by
  simp only [processSection, hval]
  rw [if_pos hgt]
  refine ⟨rfl, rfl, ?_⟩
  cases st.plan with
  | none => rfl
  | some p => rfl

/-- Witness for C7 with `section_number = 3`, `total_sections = 2`. -/
theorem processSection_self_widening_witness :
    validateSectionData inpWiden =
      .ok (.sect ⟨3, 2, "Section 3", "", false, [], true⟩) ∧
    ((⟨3, 2, "Section 3", "", false, [], true⟩ : SectionData).total_sections <
      (⟨3, 2, "Section 3", "", false, [], true⟩ : SectionData).section_number) ∧
    (isErrorResult
        (processSection emptySrcOracle emptyGfxOracle initialState inpWiden).2 = false ∧
      (processSection emptySrcOracle emptyGfxOracle initialState inpWiden).1.report_sections =
        initialState.report_sections ++
          [{ (⟨3, 2, "Section 3", "", false, [], true⟩ : SectionData) with
              total_sections :=
                (⟨3, 2, "Section 3", "", false, [], true⟩ : SectionData).section_number }] ∧
      planShape
          (processSection emptySrcOracle emptyGfxOracle initialState inpWiden).1.plan =
        planShape initialState.plan) :=
  ⟨rfl, by decide,
    processSection_self_widening emptySrcOracle emptyGfxOracle initialState
      inpWiden ⟨3, 2, "Section 3", "", false, [], true⟩ rfl (by decide)⟩

/-- C10: an initialization whose `page_count` fails integer parsing or
parses to `0` silently gets the default `4`, likewise `source_count`
gets `10`, and no error result is produced. -/
theorem processSection_init_malformed_defaults
    (src : String → Int → List Source) (gfx : String → Int → List Graphic)
    (st : SequentialReportState) (inp : InputData) (tv pv sv : JSValue)
    (ht : inp.topic = some tv) (hp : inp.page_count = some pv)
    (hs : inp.source_count = some sv)
    (hpm : jsParseInt (jsToString pv) = none ∨
      jsParseInt (jsToString pv) = some 0)
    (hsm : jsParseInt (jsToString sv) = none ∨
      jsParseInt (jsToString sv) = some 0) :
    isErrorResult (processSection src gfx st inp).2 = false ∧
    (processSection src gfx st inp).1.page_count = 4 ∧
    (processSection src gfx st inp).1.source_count = 10 := by
  have e1 : jsIntOr (jsParseInt (jsToString pv)) DEFAULT_PAGE_COUNT = 4 := by
    rcases hpm with h | h <;> rw [h] <;> rfl
  have e2 : jsIntOr (jsParseInt (jsToString sv)) DEFAULT_SOURCE_COUNT = 10 := by
    rcases hsm with h | h <;> rw [h] <;> rfl
  have hval : validateSectionData inp =
      .ok (.init (jsToString tv) (some 4) (some 10)
        (inp.include_graphics.map jsTruthy)) := by
    unfold validateSectionData
    rw [ht, hp, hs]
    simp only [Option.map_some', e1, e2]
  simp only [processSection, hval]
  exact ⟨rfl, rfl, rfl⟩

/-- Witness for C10 with `page_count = "abc"` and `source_count = "0"`. -/
theorem processSection_init_malformed_defaults_witness :
    inpInitMalformed.topic = some (.str "Napoleon") ∧
    inpInitMalformed.page_count = some (.str "abc") ∧
    inpInitMalformed.source_count = some (.str "0") ∧
    jsParseInt (jsToString (.str "abc")) = none ∧
    jsParseInt (jsToString (.str "0")) = some 0 ∧
    (isErrorResult
        (processSection emptySrcOracle emptyGfxOracle initialState
          inpInitMalformed).2 = false ∧
      (processSection emptySrcOracle emptyGfxOracle initialState
          inpInitMalformed).1.page_count = 4 ∧
      (processSection emptySrcOracle emptyGfxOracle initialState
          inpInitMalformed).1.source_count = 10) :=
  ⟨rfl, rfl, rfl, rfl, rfl,
    processSection_init_malformed_defaults emptySrcOracle emptyGfxOracle
      initialState inpInitMalformed (.str "Napoleon") (.str "abc") (.str "0")
      rfl rfl rfl (Or.inl rfl) (Or.inr rfl)⟩

/-- Length of the built source list. -/
theorem buildSources_length (rs : List SrcRecord) :
    ∀ k, (buildSources k rs).length = rs.length := by
  induction rs with
  | nil => intro k; rfl
  | cons r rs ih => intro k; simp [buildSources, ih (k + 1)]

/-- Ids of the built source list are consecutive from `k + 1`. -/
theorem buildSources_map_id (rs : List SrcRecord) :
    ∀ k, (buildSources k rs).map Source.id =
      (List.range rs.length).map fun i => ((k + i : Nat) : Int) + 1 := by
  induction rs with
  | nil => intro k; rfl
  | cons r rs ih =>
    intro k
    simp only [buildSources, List.map_cons, ih (k + 1), List.length_cons,
      List.range_succ_eq_map, List.map_map]
    congr 1
    apply List.map_congr_left
    intro a _
    simp only [Function.comp_apply]
    omega

/-- C5: when the primary natural-language search returns fewer records
than requested, exactly one supplementary non-exact subject search is
issued for the remaining count, the two batches are concatenated in order
without de-duplication and truncated to the target, and the resulting
sources carry sequential 1-based ids in final order. -/
theorem searchSources_supplementary (nat : List SrcRecord)
    (api : String → Bool → Int → List SrcRecord) (topic : String) (n : Int)
    (h : (nat.length : Int) < n) :
    (searchSources nat api topic n).2 = [⟨topic, false, n - nat.length⟩] ∧
    (searchSources nat api topic n).1 =
      buildSources 0 ((nat ++ api topic false (n - nat.length)).take n.toNat) ∧
    (searchSources nat api topic n).1.map Source.id =
      (List.range (searchSources nat api topic n).1.length).map
        fun i : Nat => (i : Int) + 1 := by
  have h0 : ¬ n < 0 := by
    have : (0 : Int) ≤ (nat.length : Int) := Int.ofNat_nonneg _
    omega
  have hss : searchSources nat api topic n =
      (buildSources 0 ((nat ++ api topic false (n - nat.length)).take n.toNat),
        [⟨topic, false, n - nat.length⟩]) := by
    unfold searchSources
    rw [if_pos h]
    simp only [jsSliceTo, if_neg h0]
  refine ⟨by rw [hss], by rw [hss], ?_⟩
  rw [hss]
  simp only
  rw [buildSources_map_id _ 0, buildSources_length]
  apply List.map_congr_left
  intro a _
  simp

/-- Witness for C5: an empty primary batch and a target of 3 triggers one
subject search for 3 records. -/
theorem searchSources_supplementary_witness :
    ((List.length ([] : List SrcRecord) : Int) < 3) ∧
    (searchSources [] emptySubjectOracle "paris" 3).2 = [⟨"paris", false, 3⟩] := by
  refine ⟨by decide, ?_⟩
  have h := (searchSources_supplementary [] emptySubjectOracle "paris" 3 (by decide)).1
  simpa using h

/-- C6: when every layered graphics query returns zero records and at
least two graphics are requested, the result is exactly the two
placeholders: ids 1 and 2, kinds image and map, the fixed default URL and
the logo thumbnail. -/
theorem searchGraphics_all_empty_placeholders
    (api : String → Int → List SrcRecord) (topic : String) (count : Int)
    (h1 : api (imgQuery (mainKeywordOf topic)) count = [])
    (h2 : api (imgQuery topic) count = [])
    (h3 : api (mapQuery (mainKeywordOf topic)) count = [])
    (h4 : api (mapQuery topic) count = [])
    (h5 : api (generalQuery (mainKeywordOf topic)) count = [])
    (hc : 2 ≤ count) :
    searchGraphics api topic count =
      [placeholderImage topic, placeholderMap topic] ∧
    (placeholderImage topic).id = 1 ∧ (placeholderImage topic).type = "image" ∧
    (placeholderImage topic).url = "https://gallica.bnf.fr/" ∧
    (placeholderImage topic).thumbnail =
      "https://gallica.bnf.fr/themes/gallica2015/images/logo-gallica.png" ∧
    (placeholderMap topic).id = 2 ∧ (placeholderMap topic).type = "map" ∧
    (placeholderMap topic).url = "https://gallica.bnf.fr/" ∧
    (placeholderMap topic).thumbnail =
      "https://gallica.bnf.fr/themes/gallica2015/images/logo-gallica.png" := by
  have h0 : ¬ count < 0 := by omega
  have htake : (2 : Nat) ≤ count.toNat := by omega
  refine ⟨?_, rfl, rfl, rfl, rfl, rfl, rfl, rfl, rfl⟩
  simp only [searchGraphics, h1, h2, h3, h4, h5, List.isEmpty_nil, if_true,
    Bool.and_self, buildGraphics, List.length_nil, List.nil_append,
    jsSliceTo, if_neg h0]
  exact List.take_of_length_le htake

/-- Witness for C6 at `count = 2` with an oracle that finds nothing. -/
theorem searchGraphics_all_empty_placeholders_witness :
    emptyRecOracle (imgQuery (mainKeywordOf "paris")) 2 = [] ∧
    (2 : Int) ≤ 2 ∧
    searchGraphics emptyRecOracle "paris" 2 =
      [placeholderImage "paris", placeholderMap "paris"] := by
  refine ⟨rfl, by decide, ?_⟩
  exact (searchGraphics_all_empty_placeholders emptyRecOracle "paris" 2
    rfl rfl rfl rfl rfl (by decide)).1

/-- The identifier scan finds nothing in a text in which every `ark:` is
immediately followed by a slash or the end of the text. -/
theorem arkScan_none_of_slashOnly :
    ∀ cs, arkSlashOnly cs = true → arkScan cs = none := by
  intro cs
  induction cs with
  | nil => intro _; rfl
  | cons c t ih =>
    intro h
    rw [arkSlashOnly] at h
    rw [Bool.and_eq_true] at h
    rw [arkScan]
    by_cases hl : leadMatch "ark:".data (c :: t) = true
    · rw [if_pos hl]
      have h1 := h.1
      rw [if_pos hl] at h1
      have hcap : (((c :: t).drop 4).takeWhile fun x => !(x == '/')).isEmpty = true := by
        cases hd : (c :: t).drop 4 with
        | nil => rfl
        | cons d rest =>
          rw [hd] at h1
          have hds : d = '/' := by
            simpa using h1
          rw [hds]
          rfl
      rw [if_pos hcap]
      exact ih h.2
    · rw [if_neg hl]
      exact ih h.2

/-- C9: for every graphics record whose cleaned canonical URL contains
`ark:/` and, as in every standard Gallica URL, has each `ark:` occurrence
immediately followed by a slash, the identifier pattern never matches and
the derived thumbnail is the empty string. -/
theorem graphic_thumbnail_empty_on_standard_ark (isImage : Bool)
    (topic : String) (gid : Int) (r : SrcRecord)
    (hcontains : strHas (cleanUrlOf r) "ark:/" = true)
    (hslash : arkSlashOnly (cleanUrlOf r).data = true) :
    (graphicOfRecord isImage topic gid r).thumbnail = "" := by
  have hnone := arkScan_none_of_slashOnly (cleanUrlOf r).data hslash
  simp [graphicOfRecord, thumbnailOf, hnone]

/-- Witness for C9 on a real Gallica canonical URL. -/
theorem graphic_thumbnail_empty_witness :
    strHas (cleanUrlOf gallicaRecord) "ark:/" = true ∧
    arkSlashOnly (cleanUrlOf gallicaRecord).data = true ∧
    (graphicOfRecord true "paris" 1 gallicaRecord).thumbnail = "" :=
  ⟨by decide, by decide,
    graphic_thumbnail_empty_on_standard_ark true "paris" 1 gallicaRecord
      (by decide) (by decide)⟩

/-- Under the append-section dispatch conditions, validation runs the
append validator. -/
theorem validate_dispatch_append (inp : InputData) (ht : inp.topic = none)
    (hs : searchFlag inp = false) :
    validateSectionData inp = validateAppend inp := by
  unfold validateSectionData
  rw [ht]
  cases hss : inp.search_sources with
  | none => rfl
  | some v =>
    have hv : jsTruthy v = false := by simpa [searchFlag, hss] using hs
    simp [hv]

/-- The section-counter failure classification of a `processSection`
result agrees with the one of the underlying validation. -/
theorem snTsFailedResult_processSection (src : String → Int → List Source)
    (gfx : String → Int → List Graphic) (st : SequentialReportState)
    (inp : InputData) :
    snTsFailedResult (processSection src gfx st inp).2 =
      snTsFailed (validateSectionData inp) := by
  rcases hv : validateSectionData inp with m | v
  · simp [processSection, hv, snTsFailedResult, snTsFailed]
  · rcases v with ⟨t, pc, sc, ig⟩ | _ | sd
    · simp [processSection, hv, snTsFailedResult, snTsFailed]
    · cases hb : topicFalsy st.topic <;>
        simp [processSection, hv, hb, snTsFailedResult, snTsFailed]
    · simp [processSection, hv, snTsFailedResult, snTsFailed]

/-- The append validator reports a section-counter failure exactly when
one of the two counters is absent or not coercible. -/
theorem validateAppend_snts_iff (inp : InputData) :
    snTsFailed (validateAppend inp) =
      !(coercibleInt inp.section_number && coercibleInt inp.total_sections) := by
  have e1 : snTsErrMsg "Missing required field: section_number or total_sections" = true := by
    decide
  have e2 : snTsErrMsg "Invalid section_number: must be a number" = true := by
    decide
  have e3 : snTsErrMsg "Invalid total_sections: must be a number" = true := by
    decide
  have e4 : snTsErrMsg "Invalid content: must be a string" = false := by
    decide
  have e5 : snTsErrMsg "Invalid sources_used: must be an array" = false := by
    decide
  rcases hsn : inp.section_number with _ | snv
  · simp [validateAppend, hsn, coercibleInt, snTsFailed, e1]
  · rcases hts : inp.total_sections with _ | tsv
    · simp [validateAppend, hsn, hts, coercibleInt, snTsFailed, e1]
    · rcases hc1 : coerceSectionInt snv with _ | sn
      · simp [validateAppend, hsn, hts, coercibleInt, hc1, snTsFailed, e2]
      · rcases hc2 : coerceSectionInt tsv with _ | ts
        · simp [validateAppend, hsn, hts, coercibleInt, hc1, hc2, snTsFailed, e3]
        · rcases hcv : contentVal inp.content with _ | cstr
          · simp [validateAppend, hsn, hts, coercibleInt, hc1, hc2, hcv,
              snTsFailed, e4]
          · rcases hsu : sourcesUsedVal inp.sources_used with _ | su
            · simp [validateAppend, hsn, hts, coercibleInt, hc1, hc2, hcv, hsu,
                snTsFailed, e5]
            · simp [validateAppend, hsn, hts, coercibleInt, hc1, hc2, hcv, hsu,
                snTsFailed]

/-- C3 counterexample: `section_number = 0` is not a positive integer,
yet the append does not fail: the section is appended. -/
theorem processSection_zero_section_number_succeeds :
    isErrorResult
        (processSection emptySrcOracle emptyGfxOracle initialState
          inpZeroSection).2 = false ∧
    (processSection emptySrcOracle emptyGfxOracle initialState
        inpZeroSection).1.report_sections =
      [⟨0, 1, "Section 0", "", false, [], true⟩] :=
  ⟨rfl, rfl⟩

/-- C3 (amended): on the append path, `processSection` fails with the
section-counter `ValidationError` exactly when `sectionNumber` or
`totalSections` is absent or neither a number nor a nonempty all-digit
string (digit strings are converted); positivity is not required. -/
theorem processSection_append_validation_iff
    (src : String → Int → List Source) (gfx : String → Int → List Graphic)
    (st : SequentialReportState) (inp : InputData)
    (ht : inp.topic = none) (hs : searchFlag inp = false) :
    snTsFailedResult (processSection src gfx st inp).2 =
      !(coercibleInt inp.section_number && coercibleInt inp.total_sections) := by
  rw [snTsFailedResult_processSection, validate_dispatch_append inp ht hs,
    validateAppend_snts_iff]

/-- Witness for C3 on an input carrying a number and a digit string. -/
theorem processSection_append_validation_iff_witness :
    inpCoercible.topic = none ∧ searchFlag inpCoercible = false ∧
    snTsFailedResult
        (processSection emptySrcOracle emptyGfxOracle initialState
          inpCoercible).2 =
      !(coercibleInt inpCoercible.section_number &&
        coercibleInt inpCoercible.total_sections) :=
  ⟨rfl, rfl,
    processSection_append_validation_iff emptySrcOracle emptyGfxOracle
      initialState inpCoercible rfl rfl⟩

end SweetBnf
